import Mathlib

/-!
# Verification of the email-aliases-creator utility suite

A shallow embedding, in Lean 4, of the deterministic core of the
email-aliases-creator scripts: the themed word bundles, the classifier that
recognises generated aliases, the mulberry32 seeded generator and the alias
name synthesiser, the password synthesiser with its per-batch uniqueness
loops, the structured-list export merge, and the retrying gateway wrappers.
Every definition mirrors one function of the JavaScript sources; theorems
settle the stated behavioural properties of those functions.

Conventions of the embedding:

* JavaScript 32-bit integer operations are modelled on `Nat` with explicit
  `% 4294967296`; signed and unsigned views of a 32-bit pattern agree modulo
  `2 ^ 32`, so the unsigned model reproduces the bit patterns exactly.
* `crypto.randomBytes` and `Math.random` are oracles, passed as explicit
  streams (`Nat → Nat`, `Nat → String`) or functions.
* Mutation (the `usedNames` set, the closure seed) is explicit state passing.
* Fallible code returns `Except String`; JavaScript `while` loops whose bound
  the code enforces are structural recursion on that bound (fuel).
-/

/-- A themed word bundle: two ordered word lists, as in both scripts'
`WORD_BUNDLES` tables. -/
structure WordBundle where
  prefixes : List String
  suffixes : List String
deriving Repr, DecidableEq

/-- The word bundle keyed `privacy-guardian` in create-email-aliases.js. -/
def privacyGuardianCreate : WordBundle :=
  { prefixes := [
    "anonymous", "cipher", "crypt", "ghost", "hidden", "incognito", "masked", "phantom",
    "private", "secret", "secure", "shadow", "shield", "silent", "stealth", "vault", "veiled",
    "whisper", "cloak", "enigma", "obscure", "covert", "discrete", "guarded", "keeper",
    "sentinel", "warden", "aegis", "bastion", "fortress", "haven", "refuge", "sanctuary",
    "guardian", "protector", "defender", "encrypted", "locked", "sealed", "shielded",
    "armored", "fortified", "invisible", "unseen", "untraced", "untraceable", "nameless",
    "faceless", "void", "dark", "night", "twilight", "dusk", "shade", "umbra", "eclipse"
    ],
    suffixes := [
    "vault", "cipher", "lock", "key", "gate", "wall", "shield", "guard", "keeper", "watcher",
    "sentinel", "proxy", "mask", "cloak", "veil", "shadow", "ghost", "phantom", "spirit",
    "shade", "wraith", "specter", "node", "relay", "tunnel", "bridge", "portal", "passage",
    "path", "route", "channel", "conduit", "link", "nexus", "hub", "core", "fortress",
    "bastion", "citadel", "haven", "refuge", "sanctuary", "asylum", "den", "lair", "cache",
    "stash", "reserve", "archive", "repository", "sentry", "lookout", "observer", "monitor",
    "scanner", "detector"
    ] }

/-- The word bundle keyed `tech-wizard` in create-email-aliases.js. -/
def techWizardCreate : WordBundle :=
  { prefixes := [
    "binary", "quantum", "neural", "cyber", "digital", "virtual", "pixel", "byte", "nano",
    "micro", "macro", "meta", "proto", "core", "kernel", "daemon", "thread", "async", "sync",
    "parallel", "vector", "matrix", "logic", "boolean", "algorithm", "regex", "syntax",
    "compile", "runtime", "stack", "heap", "cache", "buffer", "stream", "pipeline", "packet",
    "protocol", "network", "mesh", "grid", "cloud", "edge", "fog", "data", "crypto", "hash",
    "token", "session", "instance", "module", "script", "lambda", "delta", "alpha", "beta",
    "gamma", "omega"
    ],
    suffixes := [
    "bit", "byte", "node", "core", "chip", "circuit", "gate", "port", "socket", "thread",
    "process", "daemon", "service", "worker", "agent", "bot", "proxy", "server", "client",
    "host", "mesh", "grid", "network", "cluster", "shard", "partition", "segment", "block",
    "chunk", "packet", "frame", "payload", "header", "footer", "wrapper", "container", "pod",
    "instance", "replica", "mirror", "cache", "buffer", "queue", "stack", "heap", "tree",
    "graph", "array", "vector", "matrix", "tensor", "scalar", "pointer", "reference", "handle",
    "descriptor"
    ] }

/-- The word bundle keyed `nature-zen` in create-email-aliases.js. -/
def natureZenCreate : WordBundle :=
  { prefixes := [
    "alpine", "amber", "arctic", "autumn", "azure", "breeze", "calm", "cascade", "cedar",
    "cloud", "coral", "crystal", "dawn", "dusk", "earth", "emerald", "forest", "frost",
    "glacial", "golden", "jade", "lunar", "maple", "marine", "meadow", "misty", "moss",
    "mountain", "ocean", "olive", "opal", "pacific", "pearl", "pebble", "pine", "quartz",
    "rain", "river", "sage", "sand", "sapphire", "sky", "snow", "solar", "spring", "stellar",
    "stone", "summer", "sunset", "thunder", "tide", "timber", "topaz", "valley", "verdant",
    "wild"
    ],
    suffixes := [
    "bay", "beach", "brook", "canyon", "cave", "cliff", "cloud", "coast", "cove", "creek",
    "delta", "dune", "falls", "field", "fjord", "forest", "garden", "glacier", "grove",
    "harbor", "haven", "hill", "hollow", "island", "lake", "lagoon", "marsh", "meadow", "mesa",
    "mist", "mountain", "oasis", "ocean", "pass", "path", "peak", "pine", "plain", "pond",
    "prairie", "reef", "ridge", "river", "rock", "shore", "spring", "stone", "stream",
    "summit", "terrace", "trail", "tree", "valley", "vista", "wave", "wood"
    ] }

/-- The word bundle keyed `urban-legend` in create-email-aliases.js. -/
def urbanLegendCreate : WordBundle :=
  { prefixes := [
    "apex", "axis", "bold", "bright", "chrome", "concrete", "core", "edge", "electric", "epic",
    "flash", "flex", "fusion", "glitch", "glow", "grid", "high", "hyper", "instant", "jet",
    "kinetic", "level", "metro", "modern", "neon", "neural", "nexus", "Night", "nova", "omega",
    "peak", "pixel", "prime", "prism", "pulse", "quick", "rapid", "razor", "reflex", "rhythm",
    "rush", "sharp", "signal", "sleek", "sonic", "spark", "speed", "spike", "surge", "swift",
    "sync", "tempo", "titan", "turbo", "ultra", "urban"
    ],
    suffixes := [
    "ace", "arc", "axis", "beat", "blast", "blaze", "block", "bolt", "buzz", "cafe", "chip",
    "city", "club", "dash", "deck", "district", "drive", "drop", "edge", "flash", "flow",
    "flux", "grid", "hub", "lane", "level", "line", "link", "loop", "mall", "metro", "mode",
    "node", "pace", "park", "phase", "pier", "plaza", "point", "pulse", "quest", "rails",
    "rise", "route", "shift", "square", "station", "street", "strip", "sync", "tower", "track",
    "trade", "transit", "venue", "zone"
    ] }

/-- The word bundle keyed `cosmic-explorer` in create-email-aliases.js. -/
def cosmicExplorerCreate : WordBundle :=
  { prefixes := [
    "astral", "atomic", "aurora", "celestial", "cosmic", "dark", "distant", "eternal",
    "galactic", "gravity", "infinite", "interstellar", "light", "lunar", "meteor", "nebula",
    "neutron", "nova", "orbit", "photon", "plasma", "pulsar", "quantum", "quasar", "radiant",
    "solar", "space", "spectral", "star", "stellar", "super", "void", "warp", "zero",
    "andromeda", "apollo", "aries", "atlas", "aurora", "boson", "comet", "corona", "cosmos",
    "eclipse", "event", "exo", "fusion", "gamma", "helios", "horizon", "ion", "jupiter",
    "kepler", "laser", "lunar", "mars", "mercury", "milky", "orbit", "orion", "phoenix",
    "pluto", "polaris", "radiation", "red", "saturn", "sirius", "titan", "uranus", "vega"
    ],
    suffixes := [
    "star", "nova", "nebula", "galaxy", "cosmos", "comet", "meteor", "orbit", "moon", "planet",
    "satellite", "asteroid", "sphere", "void", "quasar", "pulsar", "photon", "proton",
    "neutron", "electron", "particle", "wave", "field", "force", "ray", "beam", "light",
    "dark", "matter", "energy", "space", "time", "dimension", "portal", "gate", "wormhole",
    "rift", "flux", "drift", "shift", "jump", "leap", "warp", "drive", "engine", "reactor",
    "core", "station", "base", "outpost", "colony", "ship", "craft", "vessel", "probe",
    "explorer"
    ] }

/-- The word bundle keyed `mystic-shadow` in create-email-aliases.js. -/
def mysticShadowCreate : WordBundle :=
  { prefixes := [
    "ancient", "arcane", "blessed", "celestial", "cryptic", "cursed", "dark", "divine",
    "dragon", "dream", "echo", "elder", "elven", "enchanted", "eternal", "fabled", "fallen",
    "forbidden", "forgotten", "frost", "gloom", "grim", "hidden", "holy", "lost", "lunar",
    "magic", "midnight", "mystic", "mythic", "night", "obsidian", "omen", "oracle", "phantom",
    "primal", "raven", "rune", "sacred", "shadow", "silent", "silver", "soul", "spectral",
    "spirit", "star", "storm", "twilight", "umbral", "void", "wicked", "wild", "witch", "wolf",
    "wraith"
    ],
    suffixes := [
    "blade", "blood", "bone", "book", "cairn", "chalice", "circle", "coven", "crown",
    "crystal", "curse", "dawn", "dream", "dusk", "echo", "ember", "eye", "flame", "gate",
    "gaze", "gem", "glyph", "grimoire", "grove", "heart", "keeper", "key", "mark", "mirror",
    "moon", "oath", "oracle", "page", "pendant", "portal", "prophecy", "relic", "rite", "rune",
    "scroll", "seal", "seer", "shade", "sigil", "song", "soul", "spell", "spirit", "star",
    "stone", "talisman", "tome", "veil", "vessel", "ward", "whisper"
    ] }

/-- The `WORD_BUNDLES` map of create-email-aliases.js, in definition order, keyed by theme. -/
def WORD_BUNDLES : List (String × WordBundle) := [
  ("privacy-guardian", privacyGuardianCreate), ("tech-wizard", techWizardCreate), ("nature-zen", natureZenCreate), ("urban-legend", urbanLegendCreate), ("cosmic-explorer", cosmicExplorerCreate), ("mystic-shadow", mysticShadowCreate)]

/-- The word bundle keyed `privacy-guardian` in the cleanup script. -/
def privacyGuardianCleanup : WordBundle :=
  { prefixes := [
    "anonymous", "cipher", "crypt", "ghost", "hidden", "incognito", "masked", "phantom",
    "private", "secret", "secure", "shadow", "shield", "silent", "stealth", "vault", "veiled",
    "whisper", "cloak", "enigma", "obscure", "covert", "discrete", "guarded", "keeper",
    "sentinel", "warden", "aegis", "bastion", "fortress", "haven", "refuge", "sanctuary",
    "guardian", "protector", "defender", "encrypted", "locked", "sealed", "shielded",
    "armored", "fortified", "invisible", "unseen", "untraced", "untraceable", "nameless",
    "faceless", "void", "dark", "night", "twilight", "dusk", "shade", "umbra", "eclipse"
    ],
    suffixes := [
    "vault", "cipher", "lock", "key", "gate", "wall", "shield", "guard", "keeper", "watcher",
    "sentinel", "proxy", "mask", "cloak", "veil", "shadow", "ghost", "phantom", "spirit",
    "shade", "wraith", "specter", "node", "relay", "tunnel", "bridge", "portal", "passage",
    "path", "route", "channel", "conduit", "link", "nexus", "hub", "core", "fortress",
    "bastion", "citadel", "haven", "refuge", "sanctuary", "asylum", "den", "lair", "cache",
    "stash", "reserve", "archive", "repository", "sentry", "lookout", "observer", "monitor",
    "scanner", "detector"
    ] }

/-- The word bundle keyed `tech-wizard` in the cleanup script. -/
def techWizardCleanup : WordBundle :=
  { prefixes := [
    "quantum", "cyber", "nano", "micro", "mega", "giga", "tera", "ultra", "hyper", "super",
    "meta", "proto", "neo", "next", "future", "smart", "intel", "logic", "data", "info", "net",
    "web", "digital", "virtual", "cloud", "matrix", "binary", "code", "pixel", "byte", "bit",
    "cache", "buffer", "stream", "flow", "flux", "pulse", "wave", "signal", "beacon", "radar",
    "sonar", "laser", "photon", "electron", "neutron", "proton", "atom", "nucleus", "core",
    "chip", "circuit", "node", "network", "system", "protocol", "algorithm", "function",
    "method", "process", "thread", "stack", "queue", "array", "vector", "matrix", "tensor",
    "graph", "tree"
    ],
    suffixes := [
    "tech", "lab", "core", "hub", "net", "web", "cloud", "node", "link", "port", "gate",
    "zone", "realm", "space", "sphere", "domain", "field", "matrix", "grid", "mesh", "network",
    "system", "platform", "engine", "drive", "force", "power", "energy", "flux", "flow",
    "stream", "wave", "pulse", "signal", "beacon", "tower", "station", "terminal", "interface",
    "dashboard", "console", "panel", "screen", "display", "monitor", "scanner", "sensor",
    "detector", "analyzer", "processor", "compiler", "parser", "interpreter", "debugger",
    "optimizer", "enhancer", "booster", "accelerator", "amplifier", "multiplier", "generator",
    "creator", "builder", "maker", "forge", "factory", "workshop", "studio"
    ] }

/-- The word bundle keyed `nature-zen` in the cleanup script. -/
def natureZenCleanup : WordBundle :=
  { prefixes := [
    "zen", "calm", "peace", "quiet", "still", "gentle", "soft", "mild", "light", "clear",
    "pure", "fresh", "clean", "natural", "organic", "green", "eco", "wild", "forest", "wood",
    "tree", "leaf", "branch", "root", "seed", "bloom", "flower", "petal", "garden", "meadow",
    "grove", "glade", "clearing", "valley", "canyon", "ravine", "gorge", "cliff", "peak",
    "summit", "mountain", "hill", "ridge", "slope", "mesa", "butte", "plateau", "plain",
    "prairie", "savanna", "tundra", "desert", "oasis", "spring", "stream", "creek", "brook",
    "river", "lake", "pond", "pool", "waterfall", "cascade", "rapids", "ocean", "sea", "bay",
    "cove", "inlet", "fjord"
    ],
    suffixes := [
    "zen", "calm", "peace", "harmony", "balance", "flow", "stream", "creek", "river", "lake",
    "pond", "pool", "spring", "falls", "cascade", "rapids", "wave", "tide", "shore", "beach",
    "coast", "bay", "cove", "island", "reef", "coral", "shell", "pearl", "sand", "pebble",
    "stone", "rock", "boulder", "cliff", "cave", "grotto", "canyon", "valley", "meadow",
    "field", "plain", "prairie", "savanna", "tundra", "desert", "dune", "oasis", "grove",
    "forest", "woods", "jungle", "rainforest", "canopy", "understory", "floor", "trail",
    "path", "way", "route", "passage", "bridge", "crossing", "ford", "summit", "peak", "ridge",
    "slope", "hill"
    ] }

/-- The word bundle keyed `urban-legend` in the cleanup script. -/
def urbanLegendCleanup : WordBundle :=
  { prefixes := [
    "neon", "metro", "urban", "city", "street", "avenue", "boulevard", "plaza", "square",
    "district", "quarter", "block", "corner", "junction", "intersection", "crossing",
    "station", "terminal", "depot", "hub", "center", "core", "downtown", "uptown", "midtown",
    "downtown", "subway", "underground", "tunnel", "bridge", "overpass", "underpass",
    "highway", "freeway", "expressway", "parkway", "boulevard", "strip", "row", "alley",
    "lane", "drive", "road", "route", "path", "way", "walk", "promenade", "pier", "dock",
    "wharf", "port", "harbor", "marina", "bay", "waterfront", "riverside", "lakefront",
    "beachfront", "boardwalk", "esplanade", "arcade", "gallery", "passage", "corridor",
    "concourse", "atrium", "lobby", "foyer"
    ],
    suffixes := [
    "street", "avenue", "boulevard", "plaza", "square", "circle", "court", "place", "terrace",
    "drive", "lane", "road", "way", "walk", "path", "trail", "route", "alley", "row", "strip",
    "block", "district", "quarter", "zone", "sector", "area", "region", "precinct", "ward",
    "borough", "neighborhood", "community", "village", "town", "city", "metro", "urban",
    "downtown", "uptown", "midtown", "central", "north", "south", "east", "west", "station",
    "terminal", "depot", "hub", "center", "point", "node", "nexus", "junction", "crossing",
    "intersection", "corner", "edge", "border", "boundary", "limit", "frontier", "outpost",
    "enclave", "haven", "refuge", "sanctuary", "shelter", "safe", "house"
    ] }

/-- The word bundle keyed `cosmic-explorer` in the cleanup script. -/
def cosmicExplorerCleanup : WordBundle :=
  { prefixes := [
    "star", "solar", "lunar", "cosmic", "astro", "celestial", "stellar", "galactic", "nebula",
    "nova", "super", "hyper", "ultra", "mega", "giga", "quantum", "infinity", "eternal",
    "immortal", "infinite", "endless", "boundless", "limitless", "timeless", "ageless",
    "ancient", "primordial", "primal", "original", "first", "alpha", "omega", "zenith", "apex",
    "peak", "summit", "pinnacle", "acme", "climax", "culmination", "meridian", "equinox",
    "solstice", "eclipse", "transit", "conjunction", "opposition", "alignment", "syzygy",
    "occultation", "perihelion", "aphelion", "perigee", "apogee", "ascending", "descending",
    "retrograde", "prograde", "direct", "stationary", "conjunction", "opposition", "square",
    "trine", "sextile", "quincunx", "semisextile", "semisquare"
    ],
    suffixes := [
    "star", "sun", "moon", "planet", "comet", "asteroid", "meteor", "meteorite", "galaxy",
    "nebula", "cluster", "constellation", "orbit", "trajectory", "path", "course", "route",
    "way", "trail", "journey", "voyage", "expedition", "mission", "quest", "search",
    "exploration", "discovery", "finding", "revelation", "unveiling", "disclosure", "exposure",
    "manifestation", "appearance", "emergence", "arising", "dawn", "sunrise", "daybreak",
    "morning", "noon", "afternoon", "evening", "dusk", "twilight", "sunset", "nightfall",
    "night", "midnight", "darkness", "shadow", "eclipse", "occultation", "transit", "passage",
    "crossing", "intersection", "junction", "nexus", "node", "point", "spot", "place",
    "location", "position", "site", "station", "base"
    ] }

/-- The word bundle keyed `mystic-shadow` in the cleanup script. -/
def mysticShadowCleanup : WordBundle :=
  { prefixes := [
    "mystic", "magic", "arcane", "occult", "esoteric", "hidden", "secret", "cryptic",
    "mysterious", "enigmatic", "obscure", "veiled", "shrouded", "cloaked", "masked",
    "concealed", "covert", "furtive", "stealthy", "surreptitious", "clandestine", "undercover",
    "underground", "subterranean", "depths", "abyss", "void", "chasm", "gulf", "pit", "crater",
    "cavern", "cave", "grotto", "hollow", "den", "lair", "nest", "burrow", "warren", "maze",
    "labyrinth", "puzzle", "riddle", "enigma", "mystery", "conundrum", "paradox", "anomaly",
    "aberration", "deviation", "divergence", "departure", "digression", "tangent", "offshoot",
    "branch", "fork", "split", "divide", "rift", "breach", "gap", "opening", "aperture",
    "portal", "gateway", "door"
    ],
    suffixes := [
    "shadow", "shade", "phantom", "ghost", "specter", "wraith", "spirit", "soul", "essence",
    "aura", "presence", "being", "entity", "creature", "form", "shape", "figure", "silhouette",
    "outline", "contour", "profile", "aspect", "facet", "feature", "trait", "quality",
    "attribute", "property", "characteristic", "mark", "sign", "symbol", "token", "emblem",
    "badge", "crest", "seal", "sigil", "glyph", "rune", "cipher", "code", "key", "lock",
    "ward", "charm", "spell", "hex", "curse", "blessing", "boon", "gift", "power", "force",
    "energy", "magic", "mana", "chi", "prana", "vitality", "life", "breath", "wind", "air",
    "ether", "void", "abyss"
    ] }

/-- `Object.values(WORD_BUNDLES)` of the cleanup script: the bundles in definition order. -/
def CLEANUP_WORD_BUNDLES : List WordBundle := [
  privacyGuardianCleanup, techWizardCleanup, natureZenCleanup, urbanLegendCleanup, cosmicExplorerCleanup, mysticShadowCleanup]

/-! ## The classifier of the cleanup script (`isGeneratedAlias`) -/

/-- JavaScript `String.prototype.split` with a one-character separator:
`"a.b".split('.') = ["a","b"]`, `"".split('.') = [""]`, `".".split('.') =
["",""]`. Structural recursion over the character list so that proofs and
witnesses evaluate inside the kernel. -/
def splitOnChar (sep : Char) : List Char → List (List Char)
  | [] => [[]]
  | c :: cs =>
      if c = sep then [] :: splitOnChar sep cs
      else
        match splitOnChar sep cs with
        | [] => [[c]]
        | s :: rest => (c :: s) :: rest

/-- `s.split(sep)` on Lean strings, via `splitOnChar`. -/
def jsSplit (sep : Char) (s : String) : List String :=
  (splitOnChar sep s.toList).map String.mk

/-- `alias.split('@')[0]`: the text before the first `@`, or the whole string
when there is no `@`. -/
def localPartOf (addr : String) : String :=
  (jsSplit '@' addr).headD addr

/-- `isGeneratedAlias` of the cleanup script: take the local part; if it has
no `.` return false; otherwise destructure `split('.')` into its first two
segments and return whether some single bundle lists the first among its
prefixes and the second among its suffixes. -/
def isGeneratedAlias (addr : String) : Bool :=
  let localPart := localPartOf addr
  if !(localPart.toList.contains '.') then false
  else
    let parts := jsSplit '.' localPart
    let seg0 := parts.getD 0 ""
    let seg1 := parts.getD 1 ""
    CLEANUP_WORD_BUNDLES.any fun b => b.prefixes.contains seg0 && b.suffixes.contains seg1

/-- The classifier as the claim words it: true iff the local part splits into
exactly two dot-separated segments, the first appears in the prefix list of
some bundle and the second in the suffix list of some (possibly different)
bundle. Stated from the claim, for comparison with `isGeneratedAlias`. -/
def claimIsGeneratedAlias (addr : String) : Bool :=
  match jsSplit '.' (localPartOf addr) with
  | [seg0, seg1] =>
      (CLEANUP_WORD_BUNDLES.any fun b => b.prefixes.contains seg0) &&
      (CLEANUP_WORD_BUNDLES.any fun b => b.suffixes.contains seg1)
  | _ => false


/-! ## The seeded generator (`createSeededRandom`, mulberry32)

`createSeededRandom` closes over a numeric `seed` and on each call runs
`seed += 0x6D2B79F5` followed by the mulberry32 mixing steps, returning
`((t ^ t >>> 14) >>> 0) / 4294967296`.  The closure keeps the grown,
untruncated `seed` (exact in a JavaScript number for any realistic run);
each bitwise step coerces to 32 bits.  Signed (`Math.imul`, `^`, `|`) and
unsigned (`>>>`) views of a 32-bit pattern agree modulo `2 ^ 32`, and the
one float addition of two int32 values is exact, so computing on `Nat`
with `% 4294967296` reproduces the bit patterns exactly.  The float the
closure returns is `out / 2 ^ 32` with `out < 2 ^ 32` exactly
representable; we keep the integer numerator `out`. -/

/-- One call of the closure `createSeededRandom` builds: the new stored seed
and the 32-bit output numerator. -/
def mulberry32Step (seed : Nat) : Nat × Nat :=
  let s := seed + 0x6D2B79F5
  let t0 := s % 4294967296
  let t1 := ((t0 ^^^ (t0 >>> 15)) * (t0 ||| 1)) % 4294967296
  let m := ((t1 ^^^ (t1 >>> 7)) * (t1 ||| 61)) % 4294967296
  let t2 := t1 ^^^ ((t1 + m) % 4294967296)
  (s, t2 ^^^ (t2 >>> 14))

/-- The generator's stored seed after `n` calls. -/
def mulberry32After (seed : Nat) : Nat → Nat
  | 0 => seed
  | n + 1 => mulberry32After (mulberry32Step seed).1 n

/-- The first `n` output numerators of a generator created from `seed`. -/
def mulberry32Stream (seed : Nat) : Nat → List Nat
  | 0 => []
  | n + 1 => (mulberry32Step seed).2 :: mulberry32Stream (mulberry32Step seed).1 n

/-! ## The name synthesiser (`generateUniqueName`, `generateAliasNames`) -/

/-- `list[Math.floor(random() * list.length)]`: with `random() = r / 2 ^ 32`
exact and `r * length < 2 ^ 53`, the floored product is `r * length / 2 ^ 32`
in integer division. -/
def pickWord (words : List String) (r : Nat) : String :=
  words.getD (r * words.length / 4294967296) ""

/-- `generateUniqueName`: draw `prefix.suffix` from the bundle with two
generator calls per attempt, retry while the name is already used, up to
1000 attempts; mutation of the closure seed and of the used-name set is
explicit.  Returns the fresh name and the generator seed after the call. -/
def generateUniqueName (bundle : WordBundle) (usedNames : List String)
    (seed : Nat) : Nat → Except String (String × Nat)
  | 0 => .error "Failed to generate unique name after 1000 attempts. Try a different bundle or reduce alias count."
  | fuel + 1 =>
      let s1 := (mulberry32Step seed).1
      let r1 := (mulberry32Step seed).2
      let s2 := (mulberry32Step s1).1
      let r2 := (mulberry32Step s1).2
      let name := pickWord bundle.prefixes r1 ++ "." ++ pickWord bundle.suffixes r2
      if usedNames.contains name then generateUniqueName bundle usedNames s2 fuel
      else .ok (name, s2)

/-- The candidate string attempt `k` of `generateUniqueName` examines, as a
function of the seed the call started from: each attempt consumes two
generator outputs. -/
def nthCandidate (bundle : WordBundle) (seed k : Nat) : String :=
  let s0 := mulberry32After seed (2 * k)
  pickWord bundle.prefixes (mulberry32Step s0).2 ++ "." ++
    pickWord bundle.suffixes (mulberry32Step (mulberry32Step s0).1).2

/-- The loop body of `generateAliasNames`: generate `count` names, threading
the generator seed and the used-name set. -/
def generateAliasNamesGo (bundle : WordBundle) :
    Nat → Nat → List String → Except String (List String)
  | 0, _, _ => .ok []
  | n + 1, seed, usedNames =>
      match generateUniqueName bundle usedNames seed 1000 with
      | .error e => .error e
      | .ok (name, seed') =>
          match generateAliasNamesGo bundle n seed' (name :: usedNames) with
          | .error e => .error e
          | .ok names => .ok (name :: names)

/-- `generateAliasNames(count, seed, bundleKey)`: a fresh seeded generator, an
empty used-name set, then `count` calls of `generateUniqueName`. -/
def generateAliasNames (count seed : Nat) (bundle : WordBundle) :
    Except String (List String) :=
  generateAliasNamesGo bundle count seed []

/-! ## The secret synthesiser (`generateSecurePassword` and friends)

`crypto.randomBytes(1)[0]` draws are modelled by an oracle stream
`bytes : Nat → Nat`, consumed at sequentially increasing indices exactly as
the code calls `randomBytes`. -/

/-- `CHARSET.lowercase`. -/
def CHARSET_lowercase : List Char := "abcdefghijklmnopqrstuvwxyz".toList

/-- `CHARSET.uppercase`. -/
def CHARSET_uppercase : List Char := "ABCDEFGHIJKLMNOPQRSTUVWXYZ".toList

/-- `CHARSET.numbers`. -/
def CHARSET_numbers : List Char := "0123456789".toList

/-- `CHARSET.special` (the braces are escaped for Lean, same characters). -/
def CHARSET_special : List Char := "!@#$%^&*()-_=+[]\x7b\x7d|;:,.<>?".toList

/-- `ALL_CHARS`: the four charsets concatenated. -/
def ALL_CHARS : List Char :=
  CHARSET_lowercase ++ CHARSET_uppercase ++ CHARSET_numbers ++ CHARSET_special

/-- `getRandomChar`: `charset[randomBytes(1)[0] % charset.length]`. -/
def getRandomChar (charset : List Char) (byte : Nat) : Char :=
  charset.getD (byte % charset.length) ' '

/-- The password array both implementations build before shuffling: one
character of each class (bytes 0–3), then `length - 4` draws from
`ALL_CHARS` (bytes 4, 5, …). -/
def buildPassword (len : Nat) (bytes : Nat → Nat) : List Char :=
  [getRandomChar CHARSET_lowercase (bytes 0),
   getRandomChar CHARSET_uppercase (bytes 1),
   getRandomChar CHARSET_numbers (bytes 2),
   getRandomChar CHARSET_special (bytes 3)] ++
  (List.range (len - 4)).map fun i => getRandomChar ALL_CHARS (bytes (4 + i))

/-- Exchange the entries at positions `i` and `j` (both in bounds in every
use below). -/
def listSwap (l : List Char) (i j : Nat) : List Char :=
  (l.set i (l.getD j ' ')).set j (l.getD i ' ')

/-- The loop of `shuffleArray` (generate-passwords.js, Fisher–Yates): the
counter argument is the loop variable `i`; each step draws one byte at the
running offset and swaps positions `i` and `byte % (i + 1)`. -/
def fyLoop (bytes : Nat → Nat) : Nat → List Char → Nat → List Char
  | _, l, 0 => l
  | off, l, i + 1 => fyLoop bytes (off + 1) (listSwap l (i + 1) (bytes off % (i + 2))) i

/-- `shuffleArray` of generate-passwords.js, from byte offset `off`. -/
def shuffleArray (bytes : Nat → Nat) (off : Nat) (l : List Char) : List Char :=
  fyLoop bytes off l (l.length - 1)

/-- `generateSecurePassword` of generate-passwords.js: reject lengths below
8, build the class-covering array, Fisher–Yates shuffle, join.  The secret is
kept as its character list (`join('')` concatenates exactly these). -/
def generateSecurePasswordGp (len : Nat) (bytes : Nat → Nat) :
    Except String (List Char) :=
  if len < 8 then .error "Password length must be at least 8 characters"
  else .ok (shuffleArray bytes len (buildPassword len bytes))

/-- `generateSecurePassword` of create-email-aliases.js: same build, but the
shuffle is `sort(() => 0.5 - Math.random())`, whose order is
implementation-defined; it is modelled as an explicit reordering function
`shuffle`, assumed in the theorems to produce a rearrangement. -/
def generateSecurePasswordCreate (len : Nat) (bytes : Nat → Nat)
    (shuffle : List Char → List Char) : Except String (List Char) :=
  if len < 8 then .error "Password length must be at least 8 characters"
  else .ok (shuffle (buildPassword len bytes))

/-! ## Batch password uniqueness (`generateUniquePasswords`, both files)

The password values drawn are abstracted to an oracle `draw : Nat → String`
giving the secret produced by the `k`-th call of `generateSecurePassword`
inside one per-address loop; only the collision/retry logic is at issue. -/

/-- The per-address `do … while` of generate-passwords.js: generate, count
the attempt, throw once `attempts` reaches `maxAttempts = 100` (the test
sits before the collision check, so the 100th draw always throws),
otherwise retry while the draw collides with the batch's used set.  `k` is
the global draw index (the oracle position), `att` the per-address
`attempts` counter; the fuel argument makes the bounded loop structural and
every call supplies `fuel = 100 - att`. -/
def drawLoopGp (used : List String) (draw : Nat → String) :
    Nat → Nat → Nat → Except String (String × Nat)
  | _, _, 0 => .error "Failed to generate unique password after max attempts"
  | k, att, fuel + 1 =>
      let p := draw k
      if att + 1 ≥ 100 then
        .error "Failed to generate unique password after max attempts"
      else if used.contains p then drawLoopGp used draw (k + 1) (att + 1) fuel
      else .ok (p, k + 1)

/-- `generateUniquePasswords` of generate-passwords.js over the whole batch,
threading the global draw count and the used set. -/
def generateUniquePasswordsGp (emails : List String) (draw : Nat → String) :
    Except String (List (String × String)) :=
  go emails 0 []
where
  go : List String → Nat → List String → Except String (List (String × String))
    | [], _, _ => .ok []
    | email :: rest, k, used =>
        match drawLoopGp used draw k 0 100 with
        | .error e => .error e
        | .ok (p, k') =>
            match go rest k' (p :: used) with
            | .error e => .error e
            | .ok creds => .ok ((email, p) :: creds)

/-- Outcome of running the create-email-aliases.js batch loop for a bounded
number of draws: either it finished, or it is still redrawing. -/
inductive CreateRun where
  | ok (credentials : List (String × String))
  | running
deriving Repr, DecidableEq

/-- The per-address `do { … } while (used.has(password))` of
create-email-aliases.js: no attempt counter at all.  Returns the fresh draw
and the next draw index, or `none` if `fuel` draws did not finish. -/
def drawLoopCreate (used : List String) (draw : Nat → String) :
    Nat → Nat → Option (String × Nat)
  | _, 0 => none
  | k, fuel + 1 =>
      let p := draw k
      if used.contains p then drawLoopCreate used draw (k + 1) fuel
      else some (p, k + 1)

/-- `generateUniquePasswords` of create-email-aliases.js, observed for at
most `fuel` draws per address. -/
def generateUniquePasswordsCreate (aliases : List String) (draw : Nat → String)
    (fuel : Nat) : CreateRun :=
  go aliases 0 []
where
  go : List String → Nat → List String → CreateRun
    | [], _, _ => .ok []
    | a :: rest, k, used =>
        match drawLoopCreate used draw k fuel with
        | none => .running
        | some (p, k') =>
            match go rest k' (p :: used) with
            | .running => .running
            | .ok creds => .ok ((a, p) :: creds)

/-! ## Alias records and the structured-list (JSON) export merge -/

/-- One Alias Record as created and exported by `runCreationFlow`.  The JS
field `alias` is a Lean keyword and is called `address` here; `password` is
the optional field the password pass attaches later. -/
structure AliasRecord where
  address : String
  ruleId : Option String
  createdAt : String
  status : String
  errorMsg : Option String
  bundle : String
  password : Option String
deriving Repr, DecidableEq

/-- The structured-list snapshot on disk: either a bare array of records or
the object wrapper with a metadata block and a `results`/`aliases` array. -/
inductive JsonSnapshot where
  | bare (entries : List AliasRecord)
  | wrapped (updatedAt : String) (entries : List AliasRecord)
deriving Repr, DecidableEq

/-- The records a snapshot holds. -/
def JsonSnapshot.entries : JsonSnapshot → List AliasRecord
  | .bare es => es
  | .wrapped _ es => es

/-- The JSON merge of `runCreationFlow` (create-email-aliases.js): with no
prior file, write the batch; with a prior bare array, `[...existingJson,
...results]`; with a prior object wrapper, spread the old object, replace
`results` with `[...prevAliases, ...results]` and refresh the metadata
timestamp. -/
def mergeJsonExport (now : String) :
    Option JsonSnapshot → List AliasRecord → JsonSnapshot
  | none, results => .bare results
  | some (.bare existing), results => .bare (existing ++ results)
  | some (.wrapped _ existing), results => .wrapped now (existing ++ results)

/-! ## The password pass over the structured list (`updateFilesWithPasswords`) -/

/-- What `JSON.parse` of the prior structured list gave, when it succeeded:
a bare array, an object carrying a `results`/`aliases` array, or any other
JSON value (whose master list is empty). -/
inductive ParsedJson where
  | arr (items : List AliasRecord)
  | objList (items : List AliasRecord)
  | other
deriving Repr, DecidableEq

/-- `new Map(credentials.map(c => [c.email, c.password]))` lookup: the last
pair for a key wins. -/
def credLookup (credentials : List (String × String)) (email : String) :
    Option String :=
  (credentials.reverse.find? fun c => c.1 == email).map (·.2)

/-- The `masterList.map` of `updateFilesWithPasswords`, with the
`credMap.delete` of a handled alias made explicit: an item whose address the
map still holds gets the new password attached; the map entry is then
removed, so a later duplicate of the same address keeps its old record. -/
def updateMasterList : List AliasRecord → List (String × String) → List AliasRecord
  | [], _ => []
  | item :: rest, credentials =>
      match credLookup credentials item.address with
      | some pwd =>
          { item with password := some pwd } ::
            updateMasterList rest (credentials.filter fun c => !(c.1 == item.address))
      | none => item :: updateMasterList rest credentials

/-- The structured-list section of `updateFilesWithPasswords`: when the JSON
file exists, its text is parsed with `try { JSON.parse } catch { jsonData =
[] }` — a parse failure silently becomes the empty array (`parsed = none`
models the failure).  The master list is normalised, passwords merged in,
and the object wrapper written back with `count = masterList.length`; no
code path signals an error.  When the file does not exist nothing is
written. -/
def updateJsonSection (fileExists : Bool) (parsed : Option ParsedJson)
    (credentials : List (String × String)) : Option (Nat × List AliasRecord) :=
  if fileExists then
    let jsonData := parsed.getD (.arr [])
    let masterList :=
      match jsonData with
      | .arr l => l
      | .objList l => l
      | .other => []
    let updated := updateMasterList masterList credentials
    some (updated.length, updated)
  else none

/-! ## The retrying gateway wrappers

One wrapped call is driven by an environment `env : Nat → GatewayResp`
giving the gateway's response to the attempt with retry counter `rc`
(`rc = 0` is the first request).  Both wrappers have `maxRetries = 3` and
`baseRetryDelayMs = 1000`; the delay before the retry at counter `rc` is
`1000 * 2 ^ rc`.  A wrapper returns its `Except` outcome together with the
list of delays it slept, so the retry trace is observable. -/

/-- A gateway response as the wrappers classify it: HTTP 429, an HTTP 5xx,
another non-ok response (message already extracted from the body), a 2xx
whose body lacks `success`/`result.id`, a thrown network error
(`ECONNRESET`/`ETIMEDOUT`), or success. -/
inductive GatewayResp where
  | rateLimited (msg : String)
  | serverError (msg : String)
  | clientError (msg : String)
  | invalidStructure
  | connReset (msg : String)
  | created (ruleId : String)
deriving Repr, DecidableEq

/-- The responses both wrappers retry on. -/
def GatewayResp.isTransient : GatewayResp → Bool
  | .rateLimited _ | .serverError _ | .connReset _ => true
  | _ => false

/-- `createEmailRoutingRule` (create-email-aliases.js) from retry counter
`rc`: 429 and 5xx retry after `1000 * 2 ^ rc` ms while `rc < 3` and throw a
message embedding the last body message once `rc ≥ 3`; another non-ok
response or a malformed success body throws at once; a network error
retries while `rc < 3` and is rethrown as-is at `rc = 3`.  `fuel` is
`4 - rc`; the fuel-0 branch is unreachable from the entry call. -/
def createEmailRoutingRule (env : Nat → GatewayResp) :
    Nat → Nat → Except String String × List Nat
  | _, 0 => (.error "out of fuel", [])
  | rc, fuel + 1 =>
      match env rc with
      | .rateLimited msg =>
          if rc ≥ 3 then (.error ("Rate limited after 3 retries: " ++ msg), [])
          else
            let next := createEmailRoutingRule env (rc + 1) fuel
            (next.1, 1000 * 2 ^ rc :: next.2)
      | .serverError msg =>
          if rc ≥ 3 then (.error ("Server error after 3 retries: " ++ msg), [])
          else
            let next := createEmailRoutingRule env (rc + 1) fuel
            (next.1, 1000 * 2 ^ rc :: next.2)
      | .clientError msg => (.error ("Cloudflare API Error: " ++ msg), [])
      | .invalidStructure => (.error "Invalid API response structure", [])
      | .connReset msg =>
          if rc < 3 then
            let next := createEmailRoutingRule env (rc + 1) fuel
            (next.1, 1000 * 2 ^ rc :: next.2)
          else (.error msg, [])
      | .created ruleId => (.ok ruleId, [])

/-- `deleteEmailRoutingRule` (delete-email-aliases.js) from retry counter
`rc`: the same retry skeleton, but the messages thrown on exhausted 429/5xx
retries are the fixed strings `"Rate limited after 3 retries"` and
`"Server error after 3 retries"` (the observed body message is dropped), a
non-ok response throws the extracted message, and a 2xx is returned as
success without a structure check. -/
def deleteEmailRoutingRule (env : Nat → GatewayResp) :
    Nat → Nat → Except String Unit × List Nat
  | _, 0 => (.error "out of fuel", [])
  | rc, fuel + 1 =>
      match env rc with
      | .rateLimited _ =>
          if rc ≥ 3 then (.error "Rate limited after 3 retries", [])
          else
            let next := deleteEmailRoutingRule env (rc + 1) fuel
            (next.1, 1000 * 2 ^ rc :: next.2)
      | .serverError _ =>
          if rc ≥ 3 then (.error "Server error after 3 retries", [])
          else
            let next := deleteEmailRoutingRule env (rc + 1) fuel
            (next.1, 1000 * 2 ^ rc :: next.2)
      | .clientError msg => (.error msg, [])
      | .invalidStructure => (.ok (), [])
      | .connReset msg =>
          if rc < 3 then
            let next := deleteEmailRoutingRule env (rc + 1) fuel
            (next.1, 1000 * 2 ^ rc :: next.2)
          else (.error msg, [])
      | .created _ => (.ok (), [])

/-- The terminal message `createEmailRoutingRule` surfaces when every
attempt up to the retry bound stays transient, as a function of the response
to the final attempt. -/
def createTerminalMsg : GatewayResp → String
  | .rateLimited msg => "Rate limited after 3 retries: " ++ msg
  | .serverError msg => "Server error after 3 retries: " ++ msg
  | .connReset msg => msg
  | _ => ""

/-- Likewise for `deleteEmailRoutingRule`: the observed message survives only
on the network-error path. -/
def deleteTerminalMsg : GatewayResp → String
  | .rateLimited _ => "Rate limited after 3 retries"
  | .serverError _ => "Server error after 3 retries"
  | .connReset msg => msg
  | _ => ""

/-! ## The deletion filter (delete-email-aliases.js `main`) -/

/-- JavaScript truthiness of the `ruleId` field: `null`/absent and the empty
string are falsy. -/
def jsTruthy : Option String → Bool
  | none => false
  | some s => !(s == "")

/-- `aliases.filter(a => a.status === 'success' && a.ruleId)`: the records
the deletion loop then submits, one `DELETE` per record, in order. -/
def deletableAliases (records : List AliasRecord) : List AliasRecord :=
  records.filter fun a => a.status == "success" && jsTruthy a.ruleId

/-- The capacity-exhausted message of `generateUniqueName`. -/
def nameCapacityMsg : String :=
  "Failed to generate unique name after 1000 attempts. Try a different bundle or reduce alias count."

/-- The capacity-exhausted message of the bounded password loop
(generate-passwords.js). -/
def pwCapacityMsg : String := "Failed to generate unique password after max attempts"

/-- The concrete successful record used by the merge counterexample. -/
def sampleRecord : AliasRecord :=
  { address := "cipher.vault@example.com", ruleId := some "rule-1",
    createdAt := "2026-01-01T00:00:00.000Z", status := "success",
    errorMsg := none, bundle := "privacy-guardian", password := none }

/-- A failed record: no rule identifier was assigned. -/
def failedRecord : AliasRecord :=
  { address := "ghost.proxy@example.com", ruleId := none,
    createdAt := "2026-01-01T00:00:01.000Z", status := "failed",
    errorMsg := some "Cloudflare API Error: rule quota exceeded",
    bundle := "privacy-guardian", password := none }


/-! # Theorems -/

/-- Claim C1, counterexamples to the stated classifier contract.
`cipher.vault.extra@example.com` has a three-segment local part, which the
claim says is classified false, yet the code classifies it true (only the
first two segments are consulted).  `zen.tech@example.com` has `zen` in the
nature-zen prefix list and `tech` in the tech-wizard suffix list, which the
claim says suffices (bundles need not match), yet the code classifies it
false (it demands one bundle holding both words). -/
theorem isGeneratedAlias_counterexample :
    (isGeneratedAlias "cipher.vault.extra@example.com" = true ∧
      claimIsGeneratedAlias "cipher.vault.extra@example.com" = false) ∧
    (isGeneratedAlias "zen.tech@example.com" = false ∧
      claimIsGeneratedAlias "zen.tech@example.com" = true) := by
  refine ⟨⟨?_, ?_⟩, ?_, ?_⟩ <;> decide

/-- Claim C1 as amended: the classifier returns true iff the local part
contains at least one `.` and, writing `seg0` and `seg1` for the first two
dot-separated segments (any further segments are ignored), some single word
bundle lists `seg0` among its prefixes and `seg1` among its suffixes; in
particular a local part with no `.` is classified false. -/
theorem isGeneratedAlias_amended_iff (addr : String) :
    isGeneratedAlias addr = true ↔
      ((localPartOf addr).toList.contains '.' = true ∧
        ∃ b ∈ CLEANUP_WORD_BUNDLES,
          (jsSplit '.' (localPartOf addr)).getD 0 "" ∈ b.prefixes ∧
          (jsSplit '.' (localPartOf addr)).getD 1 "" ∈ b.suffixes) := by
  unfold isGeneratedAlias
  by_cases h : (localPartOf addr).toList.contains '.'
  · simp only [h, Bool.not_true, Bool.false_eq_true, if_false, List.any_eq_true,
      Bool.and_eq_true, List.elem_iff]
    tauto
  · simp only [Bool.not_eq_true] at h
    simp [h]

/-- Claim C2, counterexample: merging the one-record batch into an empty
location and then merging the same batch again leaves two entries for the
single address — the second merge appends instead of overwriting. -/
theorem mergeJsonExport_remerge_counterexample :
    ((mergeJsonExport "t2" (some (mergeJsonExport "t1" none [sampleRecord]))
        [sampleRecord]).entries.map AliasRecord.address) =
      ["cipher.vault@example.com", "cipher.vault@example.com"] ∧
    (mergeJsonExport "t2" (some (mergeJsonExport "t1" none [sampleRecord]))
        [sampleRecord]).entries.length = 2 := by
  exact ⟨rfl, rfl⟩

/-- Claim C2 as amended: the structured-list merge of `runCreationFlow`
concatenates — the merged snapshot's entries are exactly the prior entries
followed by the batch (the batch alone when no prior snapshot exists), so
re-merging a batch duplicates its addresses rather than overwriting them;
address-keyed overwriting happens only in the flat-list and password
passes. -/
theorem mergeJsonExport_appends (now : String) (snap : Option JsonSnapshot)
    (batch : List AliasRecord) :
    (mergeJsonExport now snap batch).entries =
      (snap.map JsonSnapshot.entries).getD [] ++ batch := by
  cases snap with
  | none => simp [mergeJsonExport, JsonSnapshot.entries]
  | some s => cases s <;> simp [mergeJsonExport, JsonSnapshot.entries]

/-- Claim C3 (the code bug the spec's §9 flags): a structured-list file
whose content does not parse is treated as the empty array by
`updateFilesWithPasswords` — the pass completes without signalling an error
and writes back a snapshot with zero entries, discarding every previously
recorded record, here against a batch holding one fresh credential. -/
theorem updateJsonSection_unparseable_silently_empties :
    updateJsonSection true none [("cipher.vault@example.com", "pw")] =
      some (0, []) := rfl

/-! ## Generator lemmas -/

/-- The output numerator of one generator call is a 32-bit value. -/
theorem mulberry32Step_out_lt (seed : Nat) :
    (mulberry32Step seed).2 < 4294967296 := by
  have h2 : (4294967296 : Nat) = 2 ^ 32 := by norm_num
  have hsr : ∀ a n : Nat, a >>> n ≤ a := by
    intro a n
    rw [Nat.shiftRight_eq_div_pow]
    exact Nat.div_le_self _ _
  have key : ∀ x n : Nat, x < 2 ^ 32 → x ^^^ (x >>> n) < 2 ^ 32 := fun x n hx =>
    Nat.xor_lt_two_pow hx (lt_of_le_of_lt (hsr x n) hx)
  unfold mulberry32Step
  dsimp only
  rw [h2]
  exact key _ _ (Nat.xor_lt_two_pow (Nat.mod_lt _ (by norm_num))
    (Nat.mod_lt _ (by norm_num)))

/-- Restartability of the generator: running `n + m` calls in one go equals
running `n` calls, reading off the stored seed, and resuming for `m` calls —
the stored seed is the entire generator state. -/
theorem mulberry32Stream_add (seed n m : Nat) :
    mulberry32Stream seed (n + m) =
      mulberry32Stream seed n ++ mulberry32Stream (mulberry32After seed n) m := by
  induction n generalizing seed with
  | zero => simp [mulberry32Stream, mulberry32After]
  | succ k ih =>
      rw [Nat.succ_add]
      simp only [mulberry32Stream, mulberry32After, List.cons_append, ih]

/-- Seed evolution is additive over call counts. -/
theorem mulberry32After_add (seed n m : Nat) :
    mulberry32After seed (n + m) = mulberry32After (mulberry32After seed n) m := by
  induction n generalizing seed with
  | zero => simp [mulberry32After]
  | succ k ih => rw [Nat.succ_add]; simp only [mulberry32After, ih]

/-- A drawn word is in the list it was drawn from. -/
theorem pickWord_mem (words : List String) (r : Nat) (hw : 0 < words.length)
    (hr : r < 4294967296) : pickWord words r ∈ words := by
  unfold pickWord
  have hidx : r * words.length / 4294967296 < words.length := by
    rw [Nat.div_lt_iff_lt_mul (by norm_num)]
    calc r * words.length < 4294967296 * words.length :=
          (Nat.mul_lt_mul_right hw).mpr hr
    _ = words.length * 4294967296 := Nat.mul_comm _ _
  rw [List.getD_eq_getElem words "" hidx]
  exact List.getElem_mem hidx

/-- A successful `generateUniqueName` call returns a name that was not used
and that is `prefix ++ "." ++ suffix` for words of the bundle. -/
theorem generateUniqueName_ok (b : WordBundle) (used : List String)
    (hp : 0 < b.prefixes.length) (hs : 0 < b.suffixes.length) :
    ∀ fuel seed name seed',
      generateUniqueName b used seed fuel = .ok (name, seed') →
      name ∉ used ∧ ∃ p ∈ b.prefixes, ∃ q ∈ b.suffixes, name = p ++ "." ++ q := by
  intro fuel
  induction fuel with
  | zero => intro seed name seed' h; exact absurd h (by simp [generateUniqueName])
  | succ k ih =>
      intro seed name seed' h
      unfold generateUniqueName at h
      simp only at h
      by_cases hc : used.contains
          (pickWord b.prefixes (mulberry32Step seed).2 ++ "." ++
            pickWord b.suffixes (mulberry32Step (mulberry32Step seed).1).2)
      · rw [if_pos hc] at h
        exact ih _ _ _ h
      · rw [if_neg hc] at h
        cases h
        refine ⟨by simpa [List.elem_iff] using hc, ?_⟩
        exact ⟨_, pickWord_mem _ _ hp (mulberry32Step_out_lt _), _,
          pickWord_mem _ _ hs (mulberry32Step_out_lt _), rfl⟩

/-- The batch loop of `generateAliasNames`: a successful run returns exactly
`n` names, none of them previously used, pairwise distinct, each of bundle
shape. -/
theorem generateAliasNamesGo_ok (b : WordBundle)
    (hp : 0 < b.prefixes.length) (hs : 0 < b.suffixes.length) :
    ∀ n seed used names,
      generateAliasNamesGo b n seed used = .ok names →
      names.length = n ∧ names.Nodup ∧ (∀ x ∈ names, x ∉ used) ∧
        ∀ x ∈ names, ∃ p ∈ b.prefixes, ∃ q ∈ b.suffixes, x = p ++ "." ++ q := by
  intro n
  induction n with
  | zero =>
      intro seed used names h
      cases h
      simp
  | succ k ih =>
      intro seed used names h
      unfold generateAliasNamesGo at h
      cases hgen : generateUniqueName b used seed 1000 with
      | error e => rw [hgen] at h; simp at h
      | ok pair =>
          obtain ⟨nm, sd⟩ := pair
          rw [hgen] at h
          simp only at h
          cases hrest : generateAliasNamesGo b k sd (nm :: used) with
          | error e => rw [hrest] at h; simp at h
          | ok rest =>
              rw [hrest] at h
              simp only [Except.ok.injEq] at h
              subst h
              obtain ⟨hnotused, hshape⟩ := generateUniqueName_ok b used hp hs _ _ _ _ hgen
              obtain ⟨hlen, hnodup, hfresh, hshapes⟩ := ih _ _ _ hrest
              refine ⟨by simp [hlen], ?_, ?_, ?_⟩
              · exact List.nodup_cons.mpr
                  ⟨fun hmem => (hfresh _ hmem) (List.mem_cons_self _ _), hnodup⟩
              · intro x hx
                rcases List.mem_cons.mp hx with rfl | hx'
                · exact hnotused
                · exact fun hxu => (hfresh _ hx') (List.mem_cons_of_mem _ hxu)
              · intro x hx
                rcases List.mem_cons.mp hx with rfl | hx'
                · exact hshape
                · exact hshapes _ hx'

/-- Claim C5: batch name generation is a pure function of `(seed, bundle,
count)` — two runs agree on the nose — and the seeded generator is
restartable with no hidden state: its output stream over `n + m` calls is
the stream of the first `n` calls followed by the stream of a generator
resumed from the stored seed. -/
theorem generateAliasNames_deterministic (seed count : Nat) (b : WordBundle) :
    generateAliasNames count seed b = generateAliasNames count seed b ∧
      ∀ n m : Nat,
        mulberry32Stream seed (n + m) =
          mulberry32Stream seed n ++ mulberry32Stream (mulberry32After seed n) m :=
  ⟨rfl, fun n m => mulberry32Stream_add seed n m⟩

/-- Claim C6: a batch that `generateAliasNames` returns without error has
exactly the requested count of identifiers, each of the form
`prefix ++ "." ++ suffix` with the words drawn from the bundle's lists, and
no identifier repeats. -/
theorem generateAliasNames_ok_spec (count seed : Nat) (b : WordBundle)
    (names : List String) (hp : 0 < b.prefixes.length)
    (hs : 0 < b.suffixes.length)
    (h : generateAliasNames count seed b = .ok names) :
    names.length = count ∧ names.Nodup ∧
      ∀ x ∈ names, ∃ p ∈ b.prefixes, ∃ q ∈ b.suffixes, x = p ++ "." ++ q := by
  obtain ⟨hlen, hnodup, _, hshape⟩ := generateAliasNamesGo_ok b hp hs count seed [] names h
  exact ⟨hlen, hnodup, hshape⟩

/-- Witness for claim C6: seed 42, the privacy-guardian bundle and count 3
concretely satisfy the hypotheses, producing `guardian.bridge`,
`faceless.bastion`, `secret.route`. -/
theorem generateAliasNames_ok_spec_witness :
    (["guardian.bridge", "faceless.bastion", "secret.route"] : List String).length = 3 ∧
      (["guardian.bridge", "faceless.bastion", "secret.route"] : List String).Nodup ∧
      ∀ x ∈ (["guardian.bridge", "faceless.bastion", "secret.route"] : List String),
        ∃ p ∈ privacyGuardianCreate.prefixes, ∃ q ∈ privacyGuardianCreate.suffixes,
          x = p ++ "." ++ q :=
  generateAliasNames_ok_spec 3 42 privacyGuardianCreate
    ["guardian.bridge", "faceless.bastion", "secret.route"]
    (by decide) (by decide) (by rfl)

/-- Advancing the seed by one attempt's two generator calls shifts the
candidate index by one. -/
theorem nthCandidate_shift (b : WordBundle) (seed k : Nat) :
    nthCandidate b (mulberry32After seed 2) k = nthCandidate b seed (k + 1) := by
  unfold nthCandidate
  have h : mulberry32After seed (2 * (k + 1)) =
      mulberry32After (mulberry32After seed 2) (2 * k) := by
    rw [show 2 * (k + 1) = 2 + 2 * k by ring, mulberry32After_add]
  rw [h]

/-- One step of `generateUniqueName` on a colliding candidate. -/
theorem generateUniqueName_succ_mem (b : WordBundle) (used : List String)
    (seed fuel : Nat) (hc : nthCandidate b seed 0 ∈ used) :
    generateUniqueName b used seed (fuel + 1) =
      generateUniqueName b used (mulberry32After seed 2) fuel := by
  show (if used.contains (nthCandidate b seed 0) then
          generateUniqueName b used (mulberry32After seed 2) fuel
        else Except.ok (nthCandidate b seed 0, mulberry32After seed 2)) =
      generateUniqueName b used (mulberry32After seed 2) fuel
  rw [if_pos (List.elem_iff.mpr hc)]

/-- One step of `generateUniqueName` on a fresh candidate. -/
theorem generateUniqueName_succ_not_mem (b : WordBundle) (used : List String)
    (seed fuel : Nat) (hc : nthCandidate b seed 0 ∉ used) :
    generateUniqueName b used seed (fuel + 1) =
      .ok (nthCandidate b seed 0, mulberry32After seed 2) := by
  show (if used.contains (nthCandidate b seed 0) then
          generateUniqueName b used (mulberry32After seed 2) fuel
        else Except.ok (nthCandidate b seed 0, mulberry32After seed 2)) =
      Except.ok (nthCandidate b seed 0, mulberry32After seed 2)
  rw [if_neg (by simpa [List.elem_iff] using hc)]

/-- `generateUniqueName` throws exactly when every candidate inside the
attempt bound collides with the used set. -/
theorem generateUniqueName_error_iff (b : WordBundle) (used : List String) :
    ∀ fuel seed,
      generateUniqueName b used seed fuel = .error nameCapacityMsg ↔
        ∀ k < fuel, nthCandidate b seed k ∈ used := by
  intro fuel
  induction fuel with
  | zero =>
      intro seed
      simp [generateUniqueName, nameCapacityMsg]
  | succ f ih =>
      intro seed
      by_cases hc : nthCandidate b seed 0 ∈ used
      · rw [generateUniqueName_succ_mem b used seed f hc, ih]
        constructor
        · intro H k hk
          cases k with
          | zero => exact hc
          | succ j =>
              rw [← nthCandidate_shift]
              exact H j (Nat.lt_of_succ_lt_succ hk)
        · intro H k hk
          rw [nthCandidate_shift]
          exact H (k + 1) (Nat.succ_lt_succ hk)
      · rw [generateUniqueName_succ_not_mem b used seed f hc]
        refine iff_of_false (by simp) fun H => hc (H 0 (Nat.succ_pos f))

/-- Claim C8: a `generateUniqueName` call fails with the capacity-exhausted
error precisely when all 1000 attempted candidates (as determined by the
seed trajectory) already sit in the used-name set; whenever some attempt
within the bound finds an unused combination, no such failure occurs. -/
theorem generateUniqueName_capacity (b : WordBundle) (used : List String)
    (seed : Nat) :
    generateUniqueName b used seed 1000 = .error nameCapacityMsg ↔
      ∀ k < 1000, nthCandidate b seed k ∈ used :=
  generateUniqueName_error_iff b used 1000 seed

/-- The only error the bounded password loop produces is its
capacity-exhausted message. -/
theorem drawLoopGp_error_msg (used : List String) (draw : Nat → String) :
    ∀ fuel k att e, drawLoopGp used draw k att fuel = .error e →
      e = pwCapacityMsg := by
  intro fuel
  induction fuel with
  | zero =>
      intro k att e h
      simp only [drawLoopGp, Except.error.injEq] at h
      exact h.symm
  | succ f ih =>
      intro k att e h
      unfold drawLoopGp at h
      by_cases hb : att + 1 ≥ 100
      · rw [if_pos hb] at h
        cases h
        rfl
      · rw [if_neg hb] at h
        by_cases hc : used.contains (draw k)
        · rw [if_pos hc] at h
          exact ih _ _ _ h
        · rw [if_neg hc] at h
          cases h

/-- The bounded loop of generate-passwords.js throws exactly when the first
99 draws for the address all collide: the `attempts >= maxAttempts` test
precedes the collision test, so the 100th draw always throws. -/
theorem drawLoopGp_error_iff (used : List String) (draw : Nat → String) :
    ∀ fuel att k, att + fuel = 100 →
      (drawLoopGp used draw k att fuel = .error pwCapacityMsg ↔
        ∀ j, j + 1 < fuel → draw (k + j) ∈ used) := by
  intro fuel
  induction fuel with
  | zero =>
      intro att k _
      simp [drawLoopGp, pwCapacityMsg]
  | succ f ih =>
      intro att k hinv
      unfold drawLoopGp
      by_cases hb : att + 1 ≥ 100
      · have hf : f = 0 := by omega
        subst hf
        rw [if_pos hb]
        simp [pwCapacityMsg]
      · have hf : 0 < f := by omega
        rw [if_neg hb]
        by_cases hc : used.contains (draw k)
        · rw [if_pos hc]
          rw [ih (att + 1) (k + 1) (by omega)]
          constructor
          · intro H j hj
            cases j with
            | zero => exact List.elem_iff.mp hc
            | succ i =>
                have := H i (by omega)
                simpa [Nat.add_assoc, Nat.add_comm 1 i] using this
          · intro H j hj
            have := H (j + 1) (by omega)
            simpa [Nat.add_assoc, Nat.add_comm 1 j] using this
        · rw [if_neg hc]
          refine iff_of_false (by simp) fun H => ?_
          exact (by simpa [List.elem_iff] using hc : draw k ∉ used)
            (by simpa using H 0 (by omega))

/-- A successful bounded-loop draw is fresh and happened within the bound. -/
theorem drawLoopGp_ok (used : List String) (draw : Nat → String) :
    ∀ fuel att k p k', att + fuel = 100 →
      drawLoopGp used draw k att fuel = .ok (p, k') →
      p ∉ used ∧ ∃ j, j + 1 < fuel ∧ p = draw (k + j) ∧ k' = k + j + 1 := by
  intro fuel
  induction fuel with
  | zero =>
      intro att k p k' _ h
      simp [drawLoopGp] at h
  | succ f ih =>
      intro att k p k' hinv h
      unfold drawLoopGp at h
      by_cases hb : att + 1 ≥ 100
      · rw [if_pos hb] at h; cases h
      · rw [if_neg hb] at h
        by_cases hc : used.contains (draw k)
        · rw [if_pos hc] at h
          obtain ⟨hp, j, hj, hpd, hk⟩ := ih (att + 1) (k + 1) p k' (by omega) h
          refine ⟨hp, j + 1, by omega, ?_, by omega⟩
          rw [hpd]
          congr 1
          omega
        · rw [if_neg hc] at h
          simp only [Except.ok.injEq, Prod.mk.injEq] at h
          obtain ⟨rfl, rfl⟩ := h
          exact ⟨by simpa [List.elem_iff] using hc,
            0, by omega, by simp, by omega⟩

/-- Claim C4, the stated bound refuted on create-email-aliases.js: its own
`generateUniquePasswords` has no retry bound.  With a byte oracle that keeps
producing the same secret, the batch of two addresses has made 150 draws for
the second address — far past the documented 100 — and still has neither
finished nor failed: no capacity error exists in that implementation. -/
theorem generateUniquePasswordsCreate_unbounded :
    generateUniquePasswordsCreate ["cipher.vault@example.com", "ghost.proxy@example.com"]
      (fun _ => "aA1!aA1!aA1!") 150 = CreateRun.running := by
  rfl

/-- Claim C4 as amended: the bounded redraw-on-collision contract holds for
`generateUniquePasswords` of generate-passwords.js (the create-side copy has
no bound): per address at most 100 draws happen; the capacity-exhausted
error occurs exactly when the first 99 draws for that address all collide
with the batch's secrets (the bound test precedes the collision test, so
the 100th draw always throws); a success is a fresh secret found within the
bound; and the only error the whole batch operation ever surfaces is the
capacity-exhausted message. -/
theorem generateUniquePasswordsGp_bounded (used : List String)
    (draw : Nat → String) (k : Nat) :
    (drawLoopGp used draw k 0 100 = .error pwCapacityMsg ↔
      ∀ j < 99, draw (k + j) ∈ used) ∧
    (∀ p k', drawLoopGp used draw k 0 100 = .ok (p, k') →
      p ∉ used ∧ ∃ j < 99, p = draw (k + j)) ∧
    ∀ (emails : List String) (e : String),
      generateUniquePasswordsGp emails draw = .error e → e = pwCapacityMsg := by
  refine ⟨?_, ?_, ?_⟩
  · rw [drawLoopGp_error_iff used draw 100 0 k (by omega)]
    constructor
    · intro H j hj; exact H j (by omega)
    · intro H j hj; exact H j (by omega)
  · intro p k' h
    obtain ⟨hp, j, hj, hpd, _⟩ := drawLoopGp_ok used draw 100 0 k p k' (by omega) h
    exact ⟨hp, j, by omega, hpd⟩
  · intro emails
    suffices H : ∀ (es : List String) (k0 : Nat) (used0 : List String) (e : String),
        generateUniquePasswordsGp.go draw es k0 used0 = .error e → e = pwCapacityMsg by
      intro e h
      exact H emails 0 [] e h
    intro es
    induction es with
    | nil => intro k0 used0 e h; simp [generateUniquePasswordsGp.go] at h
    | cons a rest ih =>
        intro k0 used0 e h
        unfold generateUniquePasswordsGp.go at h
        cases hdraw : drawLoopGp used0 draw k0 0 100 with
        | error e' =>
            rw [hdraw] at h
            simp only [Except.error.injEq] at h
            subst h
            exact drawLoopGp_error_msg used0 draw 100 k0 0 e' hdraw
        | ok pair =>
            obtain ⟨p, k1⟩ := pair
            rw [hdraw] at h
            simp only at h
            cases hrest : generateUniquePasswordsGp.go draw rest k1 (p :: used0) with
            | error e' =>
                rw [hrest] at h
                simp only [Except.error.injEq] at h
                subst h
                exact ih k1 (p :: used0) _ hrest
            | ok creds => rw [hrest] at h; simp at h

/-- A byte-driven charset draw lands in the charset. -/
theorem getRandomChar_mem (charset : List Char) (byte : Nat)
    (h : 0 < charset.length) : getRandomChar charset byte ∈ charset := by
  unfold getRandomChar
  have hidx : byte % charset.length < charset.length := Nat.mod_lt _ h
  rw [List.getD_eq_getElem charset ' ' hidx]
  exact List.getElem_mem hidx

/-- The pre-shuffle password array has the requested length. -/
theorem buildPassword_length (len : Nat) (bytes : Nat → Nat) (h : 4 ≤ len) :
    (buildPassword len bytes).length = len := by
  simp [buildPassword]
  omega

/-- Swapping two in-bounds positions preserves membership. -/
theorem mem_listSwap (l : List Char) (i j : Nat) (hi : i < l.length)
    (hj : j < l.length) {c : Char} (hc : c ∈ l) : c ∈ listSwap l i j := by
  obtain ⟨k, hk, hck⟩ := List.mem_iff_getElem.mp hc
  by_cases hki : k = i
  · subst hki
    refine List.mem_iff_getElem.mpr ⟨j, by simp [listSwap, hj], ?_⟩
    simp only [listSwap]
    rw [List.getElem_set]
    rw [if_pos rfl]
    rw [List.getD_eq_getElem l ' ' hk]
    exact hck
  · by_cases hkj : k = j
    · subst hkj
      refine List.mem_iff_getElem.mpr ⟨i, by simp [listSwap, hi], ?_⟩
      simp only [listSwap]
      rw [List.getElem_set]
      rw [if_neg hki]
      rw [List.getElem_set]
      rw [if_pos rfl]
      rw [List.getD_eq_getElem l ' ' hk]
      exact hck
    · refine List.mem_iff_getElem.mpr ⟨k, by simp [listSwap, hk], ?_⟩
      simp only [listSwap]
      rw [List.getElem_set]
      rw [if_neg fun h' => hkj h'.symm]
      rw [List.getElem_set]
      rw [if_neg fun h' => hki h'.symm]
      exact hck

/-- The Fisher–Yates loop preserves length and membership while its counter
stays below the list length. -/
theorem fyLoop_spec (bytes : Nat → Nat) :
    ∀ c off (l : List Char), c < l.length →
      (fyLoop bytes off l c).length = l.length ∧
        ∀ x ∈ l, x ∈ fyLoop bytes off l c := by
  intro c
  induction c with
  | zero => intro off l _; exact ⟨rfl, fun x hx => hx⟩
  | succ c ih =>
      intro off l hc
      have hj : bytes off % (c + 2) < l.length :=
        lt_of_lt_of_le (Nat.mod_lt _ (by omega)) (by omega)
      have hlen : (listSwap l (c + 1) (bytes off % (c + 2))).length = l.length := by
        simp [listSwap]
      obtain ⟨ihlen, ihmem⟩ := ih (off + 1) (listSwap l (c + 1) (bytes off % (c + 2)))
        (by omega)
      refine ⟨by rw [fyLoop, ihlen, hlen], fun x hx => ?_⟩
      rw [fyLoop]
      exact ihmem x (mem_listSwap l (c + 1) _ hc hj hx)

/-- `shuffleArray` preserves length and membership. -/
theorem shuffleArray_spec (bytes : Nat → Nat) (off : Nat) (l : List Char)
    (h : 0 < l.length) :
    (shuffleArray bytes off l).length = l.length ∧
      ∀ x ∈ l, x ∈ shuffleArray bytes off l :=
  fyLoop_spec bytes (l.length - 1) off l (by omega)

/-- Claim C9: for both implementations of `generateSecurePassword`, a
requested length below 8 fails fast with the invalid-parameter error, and
any generated secret of requested length `L ≥ 8` has exactly `L` characters
and contains at least one lowercase, one uppercase, one digit and one
symbol character.  For the create-side copy the `sort(() => 0.5 -
Math.random())` shuffle is assumed only to deliver some rearrangement
(preserve length and membership), which every JavaScript `Array.sort`
does. -/
theorem generateSecurePassword_spec (len : Nat) (bytes : Nat → Nat)
    (shuffle : List Char → List Char) :
    (len < 8 →
      generateSecurePasswordGp len bytes =
          .error "Password length must be at least 8 characters" ∧
        generateSecurePasswordCreate len bytes shuffle =
          .error "Password length must be at least 8 characters") ∧
    (8 ≤ len → ∀ pw, generateSecurePasswordGp len bytes = .ok pw →
      pw.length = len ∧
        (∃ c ∈ pw, c ∈ CHARSET_lowercase) ∧ (∃ c ∈ pw, c ∈ CHARSET_uppercase) ∧
        (∃ c ∈ pw, c ∈ CHARSET_numbers) ∧ ∃ c ∈ pw, c ∈ CHARSET_special) ∧
    ((∀ l : List Char, (shuffle l).length = l.length ∧ ∀ x ∈ l, x ∈ shuffle l) →
      8 ≤ len → ∀ pw, generateSecurePasswordCreate len bytes shuffle = .ok pw →
      pw.length = len ∧
        (∃ c ∈ pw, c ∈ CHARSET_lowercase) ∧ (∃ c ∈ pw, c ∈ CHARSET_uppercase) ∧
        (∃ c ∈ pw, c ∈ CHARSET_numbers) ∧ ∃ c ∈ pw, c ∈ CHARSET_special) := by
  have hbuildlen : 8 ≤ len → (buildPassword len bytes).length = len := fun h8 =>
    buildPassword_length len bytes (by omega)
  have hlow : getRandomChar CHARSET_lowercase (bytes 0) ∈ buildPassword len bytes := by
    simp [buildPassword]
  have hup : getRandomChar CHARSET_uppercase (bytes 1) ∈ buildPassword len bytes := by
    simp [buildPassword]
  have hnum : getRandomChar CHARSET_numbers (bytes 2) ∈ buildPassword len bytes := by
    simp [buildPassword]
  have hspec : getRandomChar CHARSET_special (bytes 3) ∈ buildPassword len bytes := by
    simp [buildPassword]
  refine ⟨fun hlt => ?_, fun h8 pw hpw => ?_, fun hsh h8 pw hpw => ?_⟩
  · constructor
    · simp [generateSecurePasswordGp, hlt]
    · simp [generateSecurePasswordCreate, hlt]
  · have hne : ¬ len < 8 := by omega
    simp only [generateSecurePasswordGp, if_neg hne, Except.ok.injEq] at hpw
    subst hpw
    have hpos : 0 < (buildPassword len bytes).length := by
      rw [hbuildlen h8]; omega
    obtain ⟨hslen, hsmem⟩ := shuffleArray_spec bytes len (buildPassword len bytes) hpos
    refine ⟨by rw [hslen, hbuildlen h8], ?_, ?_, ?_, ?_⟩
    · exact ⟨_, hsmem _ hlow, getRandomChar_mem _ _ (by decide)⟩
    · exact ⟨_, hsmem _ hup, getRandomChar_mem _ _ (by decide)⟩
    · exact ⟨_, hsmem _ hnum, getRandomChar_mem _ _ (by decide)⟩
    · exact ⟨_, hsmem _ hspec, getRandomChar_mem _ _ (by decide)⟩
  · have hne : ¬ len < 8 := by omega
    simp only [generateSecurePasswordCreate, if_neg hne, Except.ok.injEq] at hpw
    subst hpw
    have hslen := (hsh (buildPassword len bytes)).1
    have hsmem := (hsh (buildPassword len bytes)).2
    refine ⟨by rw [hslen, hbuildlen h8], ?_, ?_, ?_, ?_⟩
    · exact ⟨_, hsmem _ hlow, getRandomChar_mem _ _ (by decide)⟩
    · exact ⟨_, hsmem _ hup, getRandomChar_mem _ _ (by decide)⟩
    · exact ⟨_, hsmem _ hnum, getRandomChar_mem _ _ (by decide)⟩
    · exact ⟨_, hsmem _ hspec, getRandomChar_mem _ _ (by decide)⟩

/-- Unfolding one backoff step of the delay schedule. -/
theorem delays_cons (rc m : Nat) :
    (List.range (m + 1)).map (fun j => 1000 * 2 ^ (rc + j)) =
      1000 * 2 ^ rc ::
        (List.range m).map fun j => 1000 * 2 ^ (rc + 1 + j) := by
  rw [List.range_succ_eq_map, List.map_cons, List.map_map]
  refine congrArg₂ _ (by simp) (List.map_congr_left fun j _ => ?_)
  simp only [Function.comp_apply]
  congr 1
  congr 1
  omega

/-- `createEmailRoutingRule` under an all-transient environment: every
retry is taken with doubling delays, and the terminal failure is determined
by the response to the final attempt. -/
theorem createRule_transient_exhaust (env : Nat → GatewayResp) :
    ∀ fuel rc, rc + fuel = 4 → rc ≤ 3 →
      (∀ i, rc ≤ i → i ≤ 3 → (env i).isTransient = true) →
      createEmailRoutingRule env rc fuel =
        (.error (createTerminalMsg (env 3)),
          (List.range (3 - rc)).map fun j => 1000 * 2 ^ (rc + j)) := by
  intro fuel
  induction fuel with
  | zero => intro rc h1 h2 _; omega
  | succ f ih =>
      intro rc hinv hrc htr
      have htr0 := htr rc le_rfl hrc
      unfold createEmailRoutingRule
      cases henv : env rc with
      | rateLimited msg =>
          dsimp only
          by_cases h3 : rc ≥ 3
          · have hrc3 : rc = 3 := by omega
            subst hrc3
            rw [if_pos h3, henv]
            simp [createTerminalMsg]
          · rw [if_neg h3,
              ih (rc + 1) (by omega) (by omega) fun i hi hi3 => htr i (by omega) hi3,
              show 3 - rc = (3 - (rc + 1)) + 1 by omega, delays_cons]
      | serverError msg =>
          dsimp only
          by_cases h3 : rc ≥ 3
          · have hrc3 : rc = 3 := by omega
            subst hrc3
            rw [if_pos h3, henv]
            simp [createTerminalMsg]
          · rw [if_neg h3,
              ih (rc + 1) (by omega) (by omega) fun i hi hi3 => htr i (by omega) hi3,
              show 3 - rc = (3 - (rc + 1)) + 1 by omega, delays_cons]
      | connReset msg =>
          dsimp only
          by_cases h3 : rc < 3
          · rw [if_pos h3,
              ih (rc + 1) (by omega) (by omega) fun i hi hi3 => htr i (by omega) hi3,
              show 3 - rc = (3 - (rc + 1)) + 1 by omega, delays_cons]
          · have hrc3 : rc = 3 := by omega
            subst hrc3
            rw [if_neg h3, henv]
            simp [createTerminalMsg]
      | clientError msg => rw [henv] at htr0; simp [GatewayResp.isTransient] at htr0
      | invalidStructure => rw [henv] at htr0; simp [GatewayResp.isTransient] at htr0
      | created rid => rw [henv] at htr0; simp [GatewayResp.isTransient] at htr0

/-- `createEmailRoutingRule` succeeding at attempt `k` after transient
responses: one delay per taken retry, doubling. -/
theorem createRule_success (env : Nat → GatewayResp) :
    ∀ k rc fuel rid, rc + fuel = 4 → rc + k ≤ 3 →
      (∀ i, rc ≤ i → i < rc + k → (env i).isTransient = true) →
      env (rc + k) = .created rid →
      createEmailRoutingRule env rc fuel =
        (.ok rid, (List.range k).map fun j => 1000 * 2 ^ (rc + j)) := by
  intro k
  induction k with
  | zero =>
      intro rc fuel rid hinv hk _ henv
      simp only [Nat.add_zero] at henv
      cases fuel with
      | zero => omega
      | succ f =>
          unfold createEmailRoutingRule
          rw [henv]
          simp
  | succ k ih =>
      intro rc fuel rid hinv hk htr henv
      have htr0 := htr rc le_rfl (by omega)
      cases fuel with
      | zero => omega
      | succ f =>
          unfold createEmailRoutingRule
          have henv' : env (rc + 1 + k) = .created rid := by
            rw [show rc + 1 + k = rc + (k + 1) by omega]
            exact henv
          have ihuse := ih (rc + 1) f rid (by omega) (by omega)
            (fun i hi hik => htr i (by omega) (by omega)) henv'
          cases hrc : env rc with
          | rateLimited msg =>
              dsimp only
              rw [if_neg (by omega : ¬ rc ≥ 3), ihuse, delays_cons]
          | serverError msg =>
              dsimp only
              rw [if_neg (by omega : ¬ rc ≥ 3), ihuse, delays_cons]
          | connReset msg =>
              dsimp only
              rw [if_pos (by omega : rc < 3), ihuse, delays_cons]
          | clientError msg => rw [hrc] at htr0; simp [GatewayResp.isTransient] at htr0
          | invalidStructure => rw [hrc] at htr0; simp [GatewayResp.isTransient] at htr0
          | created rid' => rw [hrc] at htr0; simp [GatewayResp.isTransient] at htr0

/-- A non-429, non-5xx error response fails `createEmailRoutingRule`
immediately: no delay, no retry. -/
theorem createRule_fatal (env : Nat → GatewayResp) (rc fuel : Nat) (msg : String)
    (henv : env rc = .clientError msg) :
    createEmailRoutingRule env rc (fuel + 1) =
      (.error ("Cloudflare API Error: " ++ msg), []) := by
  unfold createEmailRoutingRule
  rw [henv]

/-- `deleteEmailRoutingRule` under an all-transient environment: the same
retry schedule, but the 429/5xx terminal messages are fixed strings. -/
theorem deleteRule_transient_exhaust (env : Nat → GatewayResp) :
    ∀ fuel rc, rc + fuel = 4 → rc ≤ 3 →
      (∀ i, rc ≤ i → i ≤ 3 → (env i).isTransient = true) →
      deleteEmailRoutingRule env rc fuel =
        (.error (deleteTerminalMsg (env 3)),
          (List.range (3 - rc)).map fun j => 1000 * 2 ^ (rc + j)) := by
  intro fuel
  induction fuel with
  | zero => intro rc h1 h2 _; omega
  | succ f ih =>
      intro rc hinv hrc htr
      have htr0 := htr rc le_rfl hrc
      unfold deleteEmailRoutingRule
      cases henv : env rc with
      | rateLimited msg =>
          dsimp only
          by_cases h3 : rc ≥ 3
          · have hrc3 : rc = 3 := by omega
            subst hrc3
            rw [if_pos h3, henv]
            simp [deleteTerminalMsg]
          · rw [if_neg h3,
              ih (rc + 1) (by omega) (by omega) fun i hi hi3 => htr i (by omega) hi3,
              show 3 - rc = (3 - (rc + 1)) + 1 by omega, delays_cons]
      | serverError msg =>
          dsimp only
          by_cases h3 : rc ≥ 3
          · have hrc3 : rc = 3 := by omega
            subst hrc3
            rw [if_pos h3, henv]
            simp [deleteTerminalMsg]
          · rw [if_neg h3,
              ih (rc + 1) (by omega) (by omega) fun i hi hi3 => htr i (by omega) hi3,
              show 3 - rc = (3 - (rc + 1)) + 1 by omega, delays_cons]
      | connReset msg =>
          dsimp only
          by_cases h3 : rc < 3
          · rw [if_pos h3,
              ih (rc + 1) (by omega) (by omega) fun i hi hi3 => htr i (by omega) hi3,
              show 3 - rc = (3 - (rc + 1)) + 1 by omega, delays_cons]
          · have hrc3 : rc = 3 := by omega
            subst hrc3
            rw [if_neg h3, henv]
            simp [deleteTerminalMsg]
      | clientError msg => rw [henv] at htr0; simp [GatewayResp.isTransient] at htr0
      | invalidStructure => rw [henv] at htr0; simp [GatewayResp.isTransient] at htr0
      | created rid => rw [henv] at htr0; simp [GatewayResp.isTransient] at htr0

/-- `deleteEmailRoutingRule` succeeding at attempt `k` after transient
responses. -/
theorem deleteRule_success (env : Nat → GatewayResp) :
    ∀ k rc fuel rid, rc + fuel = 4 → rc + k ≤ 3 →
      (∀ i, rc ≤ i → i < rc + k → (env i).isTransient = true) →
      env (rc + k) = .created rid →
      deleteEmailRoutingRule env rc fuel =
        (.ok (), (List.range k).map fun j => 1000 * 2 ^ (rc + j)) := by
  intro k
  induction k with
  | zero =>
      intro rc fuel rid hinv hk _ henv
      simp only [Nat.add_zero] at henv
      cases fuel with
      | zero => omega
      | succ f =>
          unfold deleteEmailRoutingRule
          rw [henv]
          simp
  | succ k ih =>
      intro rc fuel rid hinv hk htr henv
      have htr0 := htr rc le_rfl (by omega)
      cases fuel with
      | zero => omega
      | succ f =>
          unfold deleteEmailRoutingRule
          have henv' : env (rc + 1 + k) = .created rid := by
            rw [show rc + 1 + k = rc + (k + 1) by omega]
            exact henv
          have ihuse := ih (rc + 1) f rid (by omega) (by omega)
            (fun i hi hik => htr i (by omega) (by omega)) henv'
          cases hrc : env rc with
          | rateLimited msg =>
              dsimp only
              rw [if_neg (by omega : ¬ rc ≥ 3), ihuse, delays_cons]
          | serverError msg =>
              dsimp only
              rw [if_neg (by omega : ¬ rc ≥ 3), ihuse, delays_cons]
          | connReset msg =>
              dsimp only
              rw [if_pos (by omega : rc < 3), ihuse, delays_cons]
          | clientError msg => rw [hrc] at htr0; simp [GatewayResp.isTransient] at htr0
          | invalidStructure => rw [hrc] at htr0; simp [GatewayResp.isTransient] at htr0
          | created rid' => rw [hrc] at htr0; simp [GatewayResp.isTransient] at htr0

/-- A non-429, non-5xx error response fails `deleteEmailRoutingRule`
immediately with the extracted message: no delay, no retry. -/
theorem deleteRule_fatal (env : Nat → GatewayResp) (rc fuel : Nat) (msg : String)
    (henv : env rc = .clientError msg) :
    deleteEmailRoutingRule env rc (fuel + 1) = (.error msg, []) := by
  unfold deleteEmailRoutingRule
  rw [henv]

/-- Claim C7, counterexample: the delete wrapper's terminal rate-limit
failure does not carry the last observed error message.  Two environments
whose rate-limit responses carry different body messages produce identical
terminal failures, so the surfaced error cannot embed the observed message
(unlike the create wrapper, which appends it). -/
theorem deleteRule_message_counterexample :
    deleteEmailRoutingRule (fun _ => .rateLimited "You are being rate limited") 0 4 =
      (.error "Rate limited after 3 retries", [1000, 2000, 4000]) ∧
    deleteEmailRoutingRule (fun _ => .rateLimited "Too many rules") 0 4 =
      (.error "Rate limited after 3 retries", [1000, 2000, 4000]) ∧
    "You are being rate limited" ≠ "Too many rules" := by
  refine ⟨rfl, rfl, by decide⟩

/-- Claim C7 as amended, for one wrapped gateway call of either wrapper
(`createEmailRoutingRule`, `deleteEmailRoutingRule`), driven by the
response environment `env`: (1) a fatal response (well-formed non-429,
non-5xx rejection) to the first attempt is surfaced immediately, with no
retry and no delay — the create wrapper prefixes `Cloudflare API Error:`,
the delete wrapper surfaces the extracted message as-is; (2) transient
responses (429, 5xx, connection reset) to every attempt exhaust the bound
of 3 retries with delays `1000 * 2 ^ attempt` — 1000, 2000, 4000 ms — and
surface a terminal failure determined by the final response: the create
wrapper's message embeds the last observed error message, the delete
wrapper's 429/5xx messages are fixed strings that drop it (only its
connection-reset path rethrows the observed error); (3) transient
responses followed by success at attempt `k ≤ 3` return success after
exactly `k` retries with the same doubling delays. -/
theorem retryPolicy_spec (env : Nat → GatewayResp) :
    (∀ msg, env 0 = .clientError msg →
      createEmailRoutingRule env 0 4 =
          (.error ("Cloudflare API Error: " ++ msg), []) ∧
        deleteEmailRoutingRule env 0 4 = (.error msg, [])) ∧
    ((∀ i, i ≤ 3 → (env i).isTransient = true) →
      createEmailRoutingRule env 0 4 =
          (.error (createTerminalMsg (env 3)), [1000, 2000, 4000]) ∧
        deleteEmailRoutingRule env 0 4 =
          (.error (deleteTerminalMsg (env 3)), [1000, 2000, 4000])) ∧
    ∀ k rid, k ≤ 3 → (∀ i, i < k → (env i).isTransient = true) →
      env k = .created rid →
      createEmailRoutingRule env 0 4 =
          (.ok rid, (List.range k).map fun j => 1000 * 2 ^ j) ∧
        deleteEmailRoutingRule env 0 4 =
          (.ok (), (List.range k).map fun j => 1000 * 2 ^ j) := by
  refine ⟨fun msg h =>
      ⟨createRule_fatal env 0 3 msg h, deleteRule_fatal env 0 3 msg h⟩,
    fun htr => ⟨?_, ?_⟩, fun k rid hk htr henv => ⟨?_, ?_⟩⟩
  · rw [createRule_transient_exhaust env 4 0 rfl (by omega) fun i _ h3 => htr i h3]
    norm_num [List.range_succ]
  · rw [deleteRule_transient_exhaust env 4 0 rfl (by omega) fun i _ h3 => htr i h3]
    norm_num [List.range_succ]
  · rw [createRule_success env k 0 4 rid rfl (by omega)
      (fun i _ hik => htr i (by omega)) (by simpa using henv)]
    simp
  · rw [deleteRule_success env k 0 4 rid rfl (by omega)
      (fun i _ hik => htr i (by omega)) (by simpa using henv)]
    simp

/-- Claim C10: the deletion script submits a delete request exactly for the
records its filter retains, and every retained record comes from the input
file, has status `success` and a non-null rule identifier — so a record
with status `failed` or `pending`, or without a rule identifier, is never
submitted. -/
theorem deletableAliases_only_success (records : List AliasRecord)
    (r : AliasRecord) (h : r ∈ deletableAliases records) :
    r ∈ records ∧ r.status = "success" ∧ r.ruleId ≠ none ∧
      r.status ≠ "failed" ∧ r.status ≠ "pending" := by
  obtain ⟨hmem, hb⟩ := List.mem_filter.mp h
  simp only [Bool.and_eq_true, beq_iff_eq] at hb
  obtain ⟨hstatus, htruthy⟩ := hb
  refine ⟨hmem, hstatus, ?_, by simp [hstatus], by simp [hstatus]⟩
  cases hr : r.ruleId with
  | none => rw [hr] at htruthy; simp [jsTruthy] at htruthy
  | some s => simp

/-- Witness for claim C10: in a file holding one failed record and one
successful record, the successful one passes the filter and satisfies the
submission conditions. -/
theorem deletableAliases_only_success_witness :
    sampleRecord ∈ [failedRecord, sampleRecord] ∧
      sampleRecord.status = "success" ∧ sampleRecord.ruleId ≠ none ∧
      sampleRecord.status ≠ "failed" ∧ sampleRecord.status ≠ "pending" :=
  deletableAliases_only_success [failedRecord, sampleRecord] sampleRecord
    (by decide)
